import Mathlib

/-!
# Verification of the neersarovar particle/quality pipeline

Shallow embedding of the particle simulation and quality-adaptive rendering
core of the repository, together with proofs and refutations of the frozen
claims about it.

Conventions of the embedding:
* JavaScript numbers are modelled as `ℚ` (all arithmetic in the embedded code
  paths is exact on rationals; `Math.random()` draws are passed in explicitly
  as parameters in `[0,1)`).
* JavaScript runtime failures (ReferenceError on an unbound identifier,
  TypeError on calling a non-function) are modelled by `Except`/`Option`
  error results; in-place object mutations performed before a throw persist,
  as in JavaScript, so stateful steps return the mutated state together with
  the error.
* When a class body declares the same method twice, the later declaration
  wins (JavaScript semantics); `Particle3D` therefore uses the second
  `reset` (src/src/components/Particle3D.js lines 223-247) and the second
  `init` (lines 255-295).
-/

/-- JavaScript runtime errors relevant to the embedded code paths. -/
inductive JsErr where
  /-- Referencing an identifier with no binding in scope
  (e.g. `StateManager` in Particle3D.js, which has no such import). -/
  | referenceError : JsErr
  /-- Calling a value that is not a function
  (e.g. `p.isExpired()` when `isExpired` is a boolean instance field). -/
  | typeError : JsErr
deriving DecidableEq

/-! ## Lake configuration (src/unnamed/part_001, `LAKE_CONFIG` lines 103-158,
`getLakeConfigType` lines 164-195) -/

/-- The six lake-type configuration categories keyed by `LAKE_CONFIG`. -/
inductive LakeConfigTy where
  | freshwater | highAltitude | urban | sacred | salt | brackish
deriving DecidableEq

/-- A `{min, max}` range as used by `particleSize` and `particleLifespan`. -/
structure RangeQ where
  min : ℚ
  max : ℚ
deriving DecidableEq

/-- One entry of `LAKE_CONFIG`. -/
structure LakeTypeConfig where
  particleCount : ℕ
  particleSize : RangeQ
  particleLifespan : RangeQ
  glowIntensity : ℚ
  color : String
  pulseFrequency : ℚ
  flowPattern : String
deriving DecidableEq

/-- `LAKE_CONFIG` (src/unnamed/part_001 lines 103-158). -/
def LAKE_CONFIG : LakeConfigTy → LakeTypeConfig
  | .freshwater =>
    { particleCount := 1000, particleSize := ⟨1/2, 2⟩,
      particleLifespan := ⟨3000, 4500⟩, glowIntensity := 1,
      color := "#4a90e2", pulseFrequency := 1, flowPattern := "gentle-ripple" }
  | .highAltitude =>
    { particleCount := 1200, particleSize := ⟨7/10, 22/10⟩,
      particleLifespan := ⟨3800, 4800⟩, glowIntensity := 12/10,
      color := "#48f2ff", pulseFrequency := 8/10, flowPattern := "mountain-current" }
  | .urban =>
    { particleCount := 900, particleSize := ⟨6/10, 19/10⟩,
      particleLifespan := ⟨3200, 4200⟩, glowIntensity := 8/10,
      color := "#2aacff", pulseFrequency := 11/10, flowPattern := "urban-flow" }
  | .sacred =>
    { particleCount := 1500, particleSize := ⟨8/10, 25/10⟩,
      particleLifespan := ⟨4000, 5000⟩, glowIntensity := 15/10,
      color := "#ffcd6b", pulseFrequency := 1/2, flowPattern := "sacred-spiral" }
  | .salt =>
    { particleCount := 800, particleSize := ⟨6/10, 18/10⟩,
      particleLifespan := ⟨3500, 4000⟩, glowIntensity := 9/10,
      color := "#b835ff", pulseFrequency := 12/10, flowPattern := "crystalline" }
  | .brackish =>
    { particleCount := 900, particleSize := ⟨6/10, 19/10⟩,
      particleLifespan := ⟨3200, 4200⟩, glowIntensity := 8/10,
      color := "#2aacff", pulseFrequency := 11/10, flowPattern := "brackish-mix" }

/-- Whether the first character list starts with the second. -/
def listLeads : List Char → List Char → Bool
  | _, [] => true
  | [], _ :: _ => false
  | a :: as, b :: bs => a == b && listLeads as bs

/-- Whether `needle` occurs as a contiguous sublist of `hay`. -/
def listHasSub (hay needle : List Char) : Bool :=
  match hay with
  | [] => needle.isEmpty
  | _ :: t => listLeads hay needle || listHasSub t needle

/-- JavaScript `hay.includes(needle)` on lowercased text, over the strings'
character lists. -/
def strIncludes (hay needle : String) : Bool :=
  listHasSub hay.toList needle.toList

/-- `getLakeConfigType` (src/unnamed/part_001 lines 164-195): normalizes a
free-text lake type to a configuration category by lowercased substring
matching (`lakeType.toLowerCase()` and `String.prototype.includes`),
defaulting to Freshwater. -/
def getLakeConfigType (lakeType : String) : LakeConfigTy :=
  let t := String.mk (lakeType.toList.map Char.toLower)
  if strIncludes t "freshwater" || strIncludes t "tectonic" || strIncludes t "lentic" then
    .freshwater
  else if strIncludes t "high altitude" || strIncludes t "glacial" || strIncludes t "alpine" then
    .highAltitude
  else if strIncludes t "urban" || strIncludes t "artificial" || strIncludes t "reservoir" then
    .urban
  else if strIncludes t "sacred" || strIncludes t "temple" || strIncludes t "holy" then
    .sacred
  else if strIncludes t "salt" || strIncludes t "saline" then
    .salt
  else if strIncludes t "brackish" || strIncludes t "lagoon" || strIncludes t "coastal" then
    .brackish
  else
    .freshwater

/-! ## Particle3D (src/src/components/Particle3D.js)

The class body declares `reset` and `init` twice; the later declarations
(lines 223-247 and 255-295) shadow the earlier ones, so they are the
effective methods and are the ones embedded here.  The structure below is
the instance shape after the effective `init` has run, extended with the
fields that `FlowController.applyFreezeBoundary` (src/unnamed/part_004
lines 191-266) and `applyTurbulentBoundary` (lines 321-393) attach to
particles (`isFrozen`, `frozenTime`, `frozenDuration`, `originalVelocity`,
`swirling`). -/

/-- The `swirling` record attached by `applyTurbulentBoundary`. -/
structure SwirlState where
  duration : ℚ
  time : ℚ
  strength : ℚ
  direction : ℤ
deriving DecidableEq

/-- A `Particle3D` instance (fields as assigned by the effective `reset`,
the effective `init`, `update`, and the FlowController boundary handlers).
`mapId` models the retained reference to the map object (`this.map`),
identified by an opaque numeral. `isExpired` is a *boolean data field* on
the instance: the effective `reset`/`init`/`update` all assign
`this.isExpired = <bool>`, which shadows the prototype method
`isExpired()` declared at lines 148-150. -/
structure Particle3D where
  x : ℚ
  y : ℚ
  z : ℚ
  velX : ℚ
  velY : ℚ
  velZ : ℚ
  accX : ℚ
  accY : ℚ
  accZ : ℚ
  mass : ℚ
  age : ℚ
  lifespan : ℚ
  size : ℚ
  opacity : ℚ
  color : Option String
  isExpired : Bool
  mapId : Option ℕ
  lngLat : Option (ℚ × ℚ)
  lakeType : Option String
  -- Fields attached by FlowController boundary handlers, never touched by
  -- the effective reset/init:
  isFrozen : Bool
  frozenTime : ℚ
  frozenDuration : ℚ
  originalVelocity : Option (ℚ × ℚ)
  swirling : Option SwirlState
deriving DecidableEq

/-- The effective `Particle3D.reset` (lines 223-247): zeroes position,
velocity, acceleration; sets `opacity = 1`, `size = 1`, `color = null`,
`age = 0`, `lifespan = 0`, `isExpired = false`; clears `map`, `lngLat`,
`lakeType`.  It does not touch `mass`, `isFrozen`, `frozenTime`,
`frozenDuration`, `originalVelocity` or `swirling`. -/
def Particle3D.reset (p : Particle3D) : Particle3D :=
  { p with
    x := 0, y := 0, z := 0,
    velX := 0, velY := 0, velZ := 0,
    accX := 0, accY := 0, accZ := 0,
    opacity := 1, size := 1, color := none,
    age := 0, lifespan := 0, isExpired := false,
    mapId := none, lngLat := none, lakeType := none }

/-- The map object passed to `init`: an identity plus the
`project([lng, lat]) → {x, y}` screen projection. -/
structure JsMap where
  id : ℕ
  projX : ℚ → ℚ → ℚ
  projY : ℚ → ℚ → ℚ

/-- The `Math.random()` draws consumed by one run of the effective `init`,
in source order, each in `[0,1)`.  The random launch direction
`(cos angle, sin angle)` with `angle = random * 2π` is transcendental in
the angle draw, so the embedding receives the resulting direction
components `dirX`, `dirY` directly. -/
structure InitDraws where
  offsetX : ℚ
  offsetY : ℚ
  massR : ℚ
  lifespanR : ℚ
  sizeR : ℚ
  opacityR : ℚ
  speedR : ℚ
  dirX : ℚ
  dirY : ℚ
  velZR : ℚ
deriving DecidableEq

/-- `Particle3D.getTypeConfig` (lines 302-310): a hardcoded placeholder that
ignores its `lakeType` argument (its own comment: "This is a simplified
version - in actual implementation, use the full configuration from
constants or models"). -/
def Particle3D.getTypeConfig (_lakeType : String) :
    RangeQ × RangeQ × ℚ :=
  (⟨1/2, 2⟩, ⟨3000, 4500⟩, 1)

/-- The effective `Particle3D.init` (lines 255-295).  Positions the particle
near the lake center, projects to pixel coordinates, stores references,
then draws physics and visual properties.  The lifespan/size ranges come
from the hardcoded `getTypeConfig`, not from `LAKE_CONFIG`. -/
def Particle3D.init (p : Particle3D) (map : JsMap) (lakeCenter : ℚ × ℚ)
    (lakeType : String) (d : InitDraws) : Particle3D :=
  let lng := lakeCenter.1 + (d.offsetX - 1/2) * (1/100)
  let lat := lakeCenter.2 + (d.offsetY - 1/2) * (1/100)
  let px := map.projX lng lat
  let py := map.projY lng lat
  let tc := Particle3D.getTypeConfig lakeType
  let lifespanRange := tc.2.1
  let sizeRange := tc.1
  let speed := 2/10 + d.speedR * (3/10)
  { p with
    x := px, y := py, z := 0,
    lngLat := some (lng, lat),
    mapId := some map.id,
    lakeType := some lakeType,
    accX := 0, accY := 0, accZ := 0,
    mass := d.massR * (1/2) + 1/2,
    age := 0,
    lifespan := lifespanRange.min + d.lifespanR * (lifespanRange.max - lifespanRange.min),
    size := sizeRange.min + d.sizeR * (sizeRange.max - sizeRange.min),
    opacity := d.opacityR * (1/2) + 3/10,
    isExpired := false,
    velX := d.dirX * speed,
    velY := d.dirY * speed,
    velZ := (d.velZR - 1/2) * (1/10) }

/-- `Particle3D.update` (lines 57-86).  Checks the `isExpired` field, then
advances `age`; a particle whose new age strictly exceeds its lifespan is
flagged expired and the method returns `false`.  Otherwise control reaches
line 68, `const flowController = StateManager.flowController;` —
Particle3D.js declares no binding for `StateManager` (its only imports are
`three` and `../models/lakes.js`), so this line throws a ReferenceError.
The age increment performed before that line persists, so the method
returns the mutated particle together with the error. -/
def Particle3D.update (p : Particle3D) (deltaTime : ℚ) :
    Particle3D × Except JsErr Bool :=
  if p.isExpired then
    (p, .ok false)
  else
    let p1 := { p with age := p.age + deltaTime }
    if p1.age > p1.lifespan then
      ({ p1 with isExpired := true }, .ok false)
    else
      (p1, .error .referenceError)

/-- Calling `particle.isExpired()` on a particle that has been through the
effective `init` (or `reset`, or an expiring `update`): the instance field
`isExpired` holds a boolean, shadowing the prototype method of the same
name, so the call itself is a TypeError. -/
def Particle3D.callIsExpired (_p : Particle3D) : Except JsErr Bool :=
  .error .typeError

/-- A convenient concrete post-`init` particle used by closed witnesses and
counterexamples: live, `age = 0`, with the given lifespan. -/
def mkLiveParticle (lifespan : ℚ) : Particle3D :=
  { x := 0, y := 0, z := 0, velX := 0, velY := 0, velZ := 0,
    accX := 0, accY := 0, accZ := 0, mass := 1/2,
    age := 0, lifespan := lifespan, size := 1, opacity := 1/2,
    color := none, isExpired := false, mapId := some 0,
    lngLat := some (0, 0), lakeType := some "Freshwater Lake",
    isFrozen := false, frozenTime := 0, frozenDuration := 0,
    originalVelocity := none, swirling := none }


/-! ## Claims C1, C3, C4 -/

/-- C1 (counterexample): the claim "once `age ≥ lifespan` the particle is
terminal and further update calls do not advance it" fails at
`age = lifespan` exactly: `update` flags expiry only on `age > lifespan`
(strict), so a particle whose age lands exactly on its lifespan is not
flagged, and one further `update` still advances its age. -/
theorem C1_counterexample :
    ((mkLiveParticle 1).update 1).1.age = ((mkLiveParticle 1).update 1).1.lifespan ∧
    ((mkLiveParticle 1).update 1).1.isExpired = false ∧
    (((mkLiveParticle 1).update 1).1.update 1).1.age = 2 := by
  norm_num [mkLiveParticle, Particle3D.update]

/-- C1 (amended): with `dt > 0`, every `update` on a particle not yet
flagged expired advances `age` by exactly `dt` (so age strictly
increases); the expired flag after the call holds exactly when the
particle was already flagged or its new age strictly exceeds its
lifespan (so the flag is set on the first call after which age exceeds
lifespan, never before, and a particle at `age = lifespan` exactly is
still advanced once more); a particle already flagged expired is left
completely unchanged (`update` is a no-op returning "do not keep"); and a
live particle with `lifespan = 0` and nonnegative age is flagged expired
by its first update. -/
theorem C1_update_lifecycle (p : Particle3D) (dt : ℚ) (hdt : 0 < dt) :
    (p.isExpired = false →
      (p.update dt).1.age = p.age + dt ∧ p.age < (p.update dt).1.age) ∧
    ((p.update dt).1.isExpired = (p.isExpired || decide (p.lifespan < p.age + dt))) ∧
    (p.isExpired = true → p.update dt = (p, .ok false)) ∧
    (p.isExpired = false → p.lifespan = 0 → 0 ≤ p.age →
      (p.update dt).1.isExpired = true) := by
  unfold Particle3D.update
  rcases hp : p.isExpired with _ | _
  · simp only [hp, Bool.false_eq_true, if_false, Bool.false_or]
    refine ⟨fun _ => ?_, ?_, fun h => absurd h (by simp), fun _ h0 hage => ?_⟩
    · split <;> simp <;> linarith
    · split
      · next h => simpa using h
      · next h => simpa using h
    · have hlt : p.lifespan < p.age + dt := by rw [h0]; linarith
      split
      · rfl
      · next h => exact absurd hlt (by simpa using h)
  · simp [hp]

/-- C1 witness: the amended lifecycle theorem applied to a concrete live
particle with lifespan 3000 and `dt = 1`. -/
theorem C1_update_lifecycle_witness :
    ((mkLiveParticle 3000).update 1).1.age = (mkLiveParticle 3000).age + 1 :=
  ((C1_update_lifecycle (mkLiveParticle 3000) 1 (by norm_num)).1 rfl).1

/-- The identity-projection map used by concrete instances. -/
def idMap : JsMap := { id := 0, projX := fun a _ => a, projY := fun _ b => b }

/-- Init draws that are all zero (every `Math.random()` returning 0),
with launch direction `(1, 0)` (angle 0). -/
def zeroDraws : InitDraws :=
  { offsetX := 0, offsetY := 0, massR := 0, lifespanR := 0, sizeR := 0,
    opacityR := 0, speedR := 0, dirX := 1, dirY := 0, velZR := 0 }

/-- C3: evaluation of the effective `init` at the failing input.  For a
Sacred Lake, `getLakeConfigType` resolves to the Sacred configuration,
whose `LAKE_CONFIG` lifespan range is `[4000, 5000]` and size range
`[0.8, 2.5]` — but `init` consults the hardcoded placeholder
`getTypeConfig` instead, so with lifespan draw 0 the particle receives
`lifespan = 3000 < 4000` and with size draw 0 `size = 0.5 < 0.8`, both
outside the configured ranges. -/
theorem C3_sacred_config_ignored :
    getLakeConfigType "Sacred Lake" = .sacred ∧
    (LAKE_CONFIG .sacred).particleLifespan = ⟨4000, 5000⟩ ∧
    (((mkLiveParticle 0).reset.init idMap (0, 0) "Sacred Lake" zeroDraws).lifespan = 3000 ∧
      ((mkLiveParticle 0).reset.init idMap (0, 0) "Sacred Lake" zeroDraws).lifespan <
        (LAKE_CONFIG .sacred).particleLifespan.min) ∧
    (((mkLiveParticle 0).reset.init idMap (0, 0) "Sacred Lake" zeroDraws).size = 1/2 ∧
      ((mkLiveParticle 0).reset.init idMap (0, 0) "Sacred Lake" zeroDraws).size <
        (LAKE_CONFIG .sacred).particleSize.min) := by
  refine ⟨by decide, rfl, ?_, ?_⟩ <;>
    norm_num [mkLiveParticle, Particle3D.reset, Particle3D.init,
      Particle3D.getTypeConfig, LAKE_CONFIG, zeroDraws, idMap]

/-- A particle state as left behind by `FlowController.applyFreezeBoundary`
(src/unnamed/part_004 lines 216-238): frozen, with a stashed original
velocity. -/
def frozenParticle : Particle3D :=
  { mkLiveParticle 3000 with
    isFrozen := true, frozenTime := 100, frozenDuration := 2500,
    originalVelocity := some (1, 0), velX := 0, velY := 0 }

/-- C4 (counterexample): two particles that differ only in the
frozen state installed by `applyFreezeBoundary` are run through
`reset()` followed by `init(...)` with identical arguments and identical
random draws — and end up in different states, because neither `reset`
nor `init` touches `isFrozen`, `frozenTime`, `frozenDuration`,
`originalVelocity` or `swirling`. -/
theorem C4_counterexample :
    (frozenParticle.reset.init idMap (0, 0) "Freshwater Lake" zeroDraws).isFrozen = true ∧
    ((mkLiveParticle 3000).reset.init idMap (0, 0) "Freshwater Lake" zeroDraws).isFrozen
      = false ∧
    frozenParticle.reset.init idMap (0, 0) "Freshwater Lake" zeroDraws ≠
      (mkLiveParticle 3000).reset.init idMap (0, 0) "Freshwater Lake" zeroDraws := by
  refine ⟨rfl, rfl, fun h => ?_⟩
  have := congrArg Particle3D.isFrozen h
  simp [frozenParticle, mkLiveParticle, Particle3D.reset, Particle3D.init] at this

/-- C4 (amended): after `reset()` followed by `init(...)` with identical
arguments and identical random draws, every field that `reset` or `init`
assigns (position, `lngLat`, map reference, `lakeType`, velocity,
acceleration, `mass`, `age`, `lifespan`, `size`, `opacity`, `color`,
`isExpired`) is identical regardless of the states before `reset`; but
the boundary-condition fields (`isFrozen`, `frozenTime`,
`frozenDuration`, `originalVelocity`, `swirling`) are carried over from
the pre-reset state unchanged, so the full public state is not
independent of history. -/
theorem C4_reset_init_purity (p q : Particle3D) (map : JsMap) (c : ℚ × ℚ)
    (t : String) (d : InitDraws) :
    ((p.reset.init map c t d).x = (q.reset.init map c t d).x ∧
     (p.reset.init map c t d).y = (q.reset.init map c t d).y ∧
     (p.reset.init map c t d).z = (q.reset.init map c t d).z ∧
     (p.reset.init map c t d).lngLat = (q.reset.init map c t d).lngLat ∧
     (p.reset.init map c t d).mapId = (q.reset.init map c t d).mapId ∧
     (p.reset.init map c t d).lakeType = (q.reset.init map c t d).lakeType ∧
     (p.reset.init map c t d).velX = (q.reset.init map c t d).velX ∧
     (p.reset.init map c t d).velY = (q.reset.init map c t d).velY ∧
     (p.reset.init map c t d).velZ = (q.reset.init map c t d).velZ ∧
     (p.reset.init map c t d).accX = (q.reset.init map c t d).accX ∧
     (p.reset.init map c t d).accY = (q.reset.init map c t d).accY ∧
     (p.reset.init map c t d).accZ = (q.reset.init map c t d).accZ ∧
     (p.reset.init map c t d).mass = (q.reset.init map c t d).mass ∧
     (p.reset.init map c t d).age = (q.reset.init map c t d).age ∧
     (p.reset.init map c t d).lifespan = (q.reset.init map c t d).lifespan ∧
     (p.reset.init map c t d).size = (q.reset.init map c t d).size ∧
     (p.reset.init map c t d).opacity = (q.reset.init map c t d).opacity ∧
     (p.reset.init map c t d).color = (q.reset.init map c t d).color ∧
     (p.reset.init map c t d).isExpired = (q.reset.init map c t d).isExpired) ∧
    ((p.reset.init map c t d).isFrozen = p.isFrozen ∧
     (p.reset.init map c t d).frozenTime = p.frozenTime ∧
     (p.reset.init map c t d).frozenDuration = p.frozenDuration ∧
     (p.reset.init map c t d).originalVelocity = p.originalVelocity ∧
     (p.reset.init map c t d).swirling = p.swirling) := by
  refine ⟨⟨rfl, rfl, rfl, rfl, rfl, rfl, rfl, rfl, rfl, rfl, rfl, rfl, rfl,
    rfl, rfl, rfl, rfl, rfl, rfl⟩, rfl, rfl, rfl, rfl, rfl⟩

/-! ## ParticlePool (src/src/utils/ParticlePool.js)

The pool's bookkeeping state: the free list holds opaque particle object
identifiers (the claims under scrutiny concern the counters and the
free-list length, not the stored particles' internals).  The list's end
models the JavaScript array's end, so `pop` takes the last element and
`push` appends.  Note on construction: the pre-allocation loop
(lines 19-22) runs `new Particle3D()` with no arguments, and that
constructor dereferences `lakeCenter[0]` (Particle3D.js line 17) — a
TypeError at runtime; `ParticlePool.create` models the free-list state
the loop is written to produce. -/

/-- The `ParticlePool` bookkeeping state. -/
structure ParticlePool where
  pool : List ℕ
  maxSize : ℕ
  activeCount : ℤ
  totalCreated : ℕ
  totalReused : ℕ
deriving DecidableEq

/-- A freshly constructed pool (constructor, lines 12-25): free list
pre-allocated with `min size 500` particles, all counters zero. -/
def ParticlePool.create (size : ℕ) : ParticlePool :=
  { pool := List.range (min size 500), maxSize := size,
    activeCount := 0, totalCreated := 0, totalReused := 0 }

/-- `ParticlePool.acquire` (lines 34-55): increments `activeCount`
unconditionally, then pops the free list; with an empty free list it runs
`new Particle3D()` with no arguments, which throws (the increment
persists).  The created/reused counters are bumped according to the
free-list length *after* the pop (line 40). -/
def ParticlePool.acquire (s : ParticlePool) : ParticlePool × Except JsErr ℕ :=
  let s1 := { s with activeCount := s.activeCount + 1 }
  match s1.pool.getLast? with
  | some pid =>
    let rest := s1.pool.dropLast
    let s2 :=
      if rest.length = 0 then
        { s1 with pool := rest, totalCreated := s1.totalCreated + 1 }
      else
        { s1 with pool := rest, totalReused := s1.totalReused + 1 }
    (s2, .ok pid)
  | none => (s1, .error .typeError)

/-- `ParticlePool.release` (lines 61-73): decrements `activeCount`
unconditionally (even for a particle never acquired), resets the particle,
and pushes it back only while the free list is below `maxSize`. -/
def ParticlePool.release (s : ParticlePool) (pid : ℕ) : ParticlePool :=
  let s1 := { s with activeCount := s.activeCount - 1 }
  if s1.pool.length < s1.maxSize then { s1 with pool := s1.pool ++ [pid] } else s1

/-- One acquire or release call. -/
inductive PoolOp where
  | acq : PoolOp
  | rel : ℕ → PoolOp
deriving DecidableEq

/-- Whether an operation is an acquire. -/
def PoolOp.isAcq : PoolOp → Bool
  | .acq => true
  | .rel _ => false

/-- Apply one pool operation (dropping acquire's return value). -/
def poolStep (s : ParticlePool) (op : PoolOp) : ParticlePool :=
  match op with
  | .acq => s.acquire.1
  | .rel pid => s.release pid

/-- Run a sequence of pool operations. -/
def poolRun (s : ParticlePool) (ops : List PoolOp) : ParticlePool :=
  ops.foldl poolStep s

theorem poolStep_activeCount (s : ParticlePool) (op : PoolOp) :
    (poolStep s op).activeCount
      = s.activeCount + (if op.isAcq then 1 else -1) := by
  cases op with
  | acq =>
    simp only [poolStep, ParticlePool.acquire, PoolOp.isAcq]
    rcases s.pool.getLast? with _ | pid <;> simp <;> split <;> simp
  | rel pid =>
    simp only [poolStep, ParticlePool.release, PoolOp.isAcq]
    split <;> simp <;> ring

theorem poolStep_maxSize (s : ParticlePool) (op : PoolOp) :
    (poolStep s op).maxSize = s.maxSize := by
  cases op with
  | acq =>
    simp only [poolStep, ParticlePool.acquire]
    rcases s.pool.getLast? with _ | pid <;> simp <;> split <;> simp
  | rel pid =>
    simp only [poolStep, ParticlePool.release]
    split <;> simp

theorem poolStep_len (s : ParticlePool) (op : PoolOp)
    (h : s.pool.length ≤ s.maxSize) :
    (poolStep s op).pool.length ≤ s.maxSize := by
  cases op with
  | acq =>
    simp only [poolStep, ParticlePool.acquire]
    rcases s.pool.getLast? with _ | pid
    · simpa using h
    · dsimp only
      split
      · simp only [List.length_dropLast]; omega
      · simp only [List.length_dropLast]; omega
  | rel pid =>
    simp only [poolStep, ParticlePool.release]
    split
    · next hlt => simp only [List.length_append, List.length_cons,
        List.length_nil]; omega
    · exact h

theorem poolRun_activeCount (ops : List PoolOp) (s : ParticlePool) :
    (poolRun s ops).activeCount
      = s.activeCount + ((ops.countP PoolOp.isAcq : ℤ)
          - (ops.countP fun o => !o.isAcq)) := by
  induction ops generalizing s with
  | nil => simp [poolRun]
  | cons op t ih =>
    have hstep : poolRun s (op :: t) = poolRun (poolStep s op) t := rfl
    rw [hstep, ih, poolStep_activeCount]
    rcases op with _ | pid <;>
      simp [PoolOp.isAcq, List.countP_cons] <;> ring

theorem poolRun_len (ops : List PoolOp) (s : ParticlePool)
    (h : s.pool.length ≤ s.maxSize) :
    (poolRun s ops).pool.length ≤ (poolRun s ops).maxSize ∧
    (poolRun s ops).maxSize = s.maxSize := by
  induction ops generalizing s with
  | nil => exact ⟨h, rfl⟩
  | cons op t ih =>
    have hstep : poolRun s (op :: t) = poolRun (poolStep s op) t := rfl
    rw [hstep]
    have hlen : (poolStep s op).pool.length ≤ (poolStep s op).maxSize := by
      rw [poolStep_maxSize]; exact poolStep_len s op h
    have := ih (poolStep s op) hlen
    exact ⟨this.1, this.2.trans (poolStep_maxSize s op)⟩

/-- C5 (counterexample): `release` decrements `activeCount` unconditionally
(ParticlePool.js line 62), so a single `release` on a freshly constructed
pool — a legal call sequence — drives `activeCount` to `-1 < 0`. -/
theorem C5_counterexample :
    (poolRun (ParticlePool.create 4) [PoolOp.rel 0]).activeCount = -1 ∧
    ¬(0 ≤ (poolRun (ParticlePool.create 4) [PoolOp.rel 0]).activeCount) := by
  decide

/-- C5 (amended): over every acquire/release sequence from a freshly
constructed pool, `activeCount` equals the number of acquires minus the
number of releases — hence it stays nonnegative exactly when releases
never outnumber acquires, but goes negative otherwise; the free-list
length never exceeds `maxSize`; and a release performed when the free
list is already full leaves its length at `maxSize` (the particle is
dropped). -/
theorem C5_pool_bookkeeping (size : ℕ) (ops : List PoolOp) :
    (poolRun (ParticlePool.create size) ops).activeCount
      = (ops.countP PoolOp.isAcq : ℤ) - (ops.countP fun o => !o.isAcq) ∧
    (poolRun (ParticlePool.create size) ops).pool.length ≤ size ∧
    (∀ pid : ℕ, (poolRun (ParticlePool.create size) ops).pool.length = size →
      ((poolRun (ParticlePool.create size) ops).release pid).pool.length = size) := by
  have hinit : (ParticlePool.create size).pool.length ≤ (ParticlePool.create size).maxSize := by
    simp [ParticlePool.create]
  have hrun := poolRun_len ops (ParticlePool.create size) hinit
  have hmax : (poolRun (ParticlePool.create size) ops).maxSize = size := hrun.2
  refine ⟨?_, le_of_le_of_eq hrun.1 hmax, fun pid hfull => ?_⟩
  · have := poolRun_activeCount ops (ParticlePool.create size)
    simpa [ParticlePool.create] using this
  · simp only [ParticlePool.release]
    split
    · next hlt => rw [hfull, hmax] at hlt; omega
    · exact hfull

/-- C5 witness: the bookkeeping theorem applied to a concrete pool of
capacity 4 and the sequence acquire-then-release, whose free list ends
full, followed by one more release. -/
theorem C5_pool_bookkeeping_witness :
    (poolRun (ParticlePool.create 4) [PoolOp.acq, PoolOp.rel 7]).pool.length ≤ 4 ∧
    ((poolRun (ParticlePool.create 4) [PoolOp.acq, PoolOp.rel 7]).release 9).pool.length = 4 :=
  ⟨(C5_pool_bookkeeping 4 [PoolOp.acq, PoolOp.rel 7]).2.1,
   (C5_pool_bookkeeping 4 [PoolOp.acq, PoolOp.rel 7]).2.2 9 (by decide)⟩

/-! ## ParticleSystem (src/src/components/LakeVisualizationSystem.js,
class `ParticleSystem`, lines 241-351)

`update(delta)` (lines 324-351) filters the particle list with the
callback `p => { p.update(delta); return !p.isExpired(); }` and then
replenishes up to `min(10, particleLimit - length)` particles via
`generateParticles`.  Two of its calls fail at runtime for any particle
that went through the pool's `acquire`/`init`:

* `p.update(delta)` reaches the unbound identifier `StateManager` at
  Particle3D.js line 68 whenever the particle stays live (ReferenceError);
* `p.isExpired()` calls the boolean instance field `isExpired` (assigned
  by `init`/`update`), which shadows the prototype method (TypeError).

When the filter callback throws, `Array.prototype.filter` aborts and the
assignment `this.particles = this.particles.filter(...)` never executes,
so the particle list keeps its old elements — though the particle objects
already visited were mutated in place.  `generateParticles(count)`
(lines 357-378) appends exactly `count` particles, each obtained from the
pool (acquire + init) or constructed directly; the supply is modelled by
the parameter `mk`. -/

/-- The `ParticleSystem` state relevant to the per-frame update. -/
structure ParticleSystem where
  active : Bool
  particles : List Particle3D
  particleLimit : ℕ
deriving DecidableEq

/-- `ParticleSystem.update` (lines 324-351).  Returns the post-call system
state together with the error that aborted the frame, if any. -/
def ParticleSystem.update (s : ParticleSystem) (delta : ℚ)
    (mk : ℕ → Particle3D) : ParticleSystem × Option JsErr :=
  if !s.active then (s, none)
  else
    match s.particles with
    | [] =>
      -- filter over an empty list succeeds; replenish a shortfall
      if 0 < s.particleLimit then
        let newCount := min 10 s.particleLimit
        ({ s with particles := (List.range newCount).map mk }, none)
      else (s, none)
    | p :: rest =>
      -- the filter callback throws at the first particle: p.update itself
      -- throws for a live particle, and otherwise the p.isExpired() call
      -- does; the in-place mutation of p persists, the list survives
      let (p', r) := p.update delta
      match r with
      | .error e => ({ s with particles := p' :: rest }, some e)
      | .ok _ =>
        match p'.callIsExpired with
        | .error e => ({ s with particles := p' :: rest }, some e)
        | .ok _ => ({ s with particles := p' :: rest }, none)

/-- C2: evaluated at the failing input — an active system holding one
particle freshly acquired from the pool (age 0, lifespan 3000 ms, live) —
`ParticleSystem.update` aborts with a ReferenceError (the unbound
`StateManager` in `Particle3D.update`); with the particle already
expired, it aborts with a TypeError instead (calling the boolean
`isExpired` field).  In both cases the per-frame call throws, contrary to
the claim. -/
theorem C2_update_throws :
    (ParticleSystem.update
      { active := true, particles := [mkLiveParticle 3000], particleLimit := 1000 }
      (1667/100) (fun _ => mkLiveParticle 3000)).2 = some JsErr.referenceError ∧
    (ParticleSystem.update
      { active := true,
        particles := [{ mkLiveParticle 3000 with isExpired := true }],
        particleLimit := 1000 }
      (1667/100) (fun _ => mkLiveParticle 3000)).2 = some JsErr.typeError := by
  constructor
  · norm_num [ParticleSystem.update, Particle3D.update, mkLiveParticle]
  · norm_num [ParticleSystem.update, Particle3D.update, Particle3D.callIsExpired,
      mkLiveParticle]

/-- C2 (general form): `ParticleSystem.update` on an active system with a
nonempty particle list always reports an error — no frame with particles
completes without throwing. -/
theorem C2_update_always_throws (s : ParticleSystem) (delta : ℚ)
    (mk : ℕ → Particle3D) (hact : s.active = true)
    (hne : s.particles ≠ []) :
    (s.update delta mk).2.isSome := by
  unfold ParticleSystem.update
  rcases hp : s.particles with _ | ⟨p, rest⟩
  · exact absurd hp hne
  · simp only [hact, Bool.not_true, Bool.false_eq_true, if_false]
    rcases hr : p.update delta with ⟨p', r⟩
    rcases r with e | b
    · simp [hr]
    · simp [hr, Particle3D.callIsExpired]

/-- C2 general-form witness: the always-throws theorem applied to the
concrete one-particle system. -/
theorem C2_update_always_throws_witness :
    (ParticleSystem.update
      { active := true, particles := [mkLiveParticle 3000], particleLimit := 1000 }
      (1667/100) (fun _ => mkLiveParticle 3000)).2.isSome :=
  C2_update_always_throws _ (1667/100) _ rfl (by simp)

/-- C6 (counterexample): starting from an active system already holding two
particles with `particleLimit = 1`, one `update` tick leaves both
particles in place — nothing trims the overflow (the filter aborts on the
first particle's throw, and no code path removes particles above the
limit), so `len(particles) ≤ particleLimit` is not established for every
starting state. -/
theorem C6_counterexample :
    ((ParticleSystem.update
        { active := true,
          particles := [mkLiveParticle 3000, mkLiveParticle 4000],
          particleLimit := 1 }
        (1667/100) (fun _ => mkLiveParticle 3000)).1).particles.length = 2 ∧
    ¬(((ParticleSystem.update
        { active := true,
          particles := [mkLiveParticle 3000, mkLiveParticle 4000],
          particleLimit := 1 }
        (1667/100) (fun _ => mkLiveParticle 3000)).1).particles.length ≤ 1) := by
  norm_num [ParticleSystem.update, Particle3D.update, mkLiveParticle]

/-- Length of the particle list after one `ParticleSystem.update` tick:
an active system with an empty list and a positive limit replenishes to
exactly `min 10 particleLimit`; every other case (inactive, erroring
filter) leaves the length unchanged. -/
theorem ParticleSystem.update_length (s : ParticleSystem) (delta : ℚ)
    (mk : ℕ → Particle3D) :
    (s.update delta mk).1.particles.length =
      if s.active = true ∧ s.particles = [] ∧ 0 < s.particleLimit
      then min 10 s.particleLimit else s.particles.length := by
  unfold ParticleSystem.update
  rcases hact : s.active with _ | _
  · simp [hact]
  · rcases hp : s.particles with _ | ⟨p, rest⟩
    · by_cases hlim : 0 < s.particleLimit
      · simp [hact, hp, hlim]
      · simp [hact, hp, hlim]
    · rcases hr : p.update delta with ⟨p', r⟩
      rcases r with e | b
      · simp [hact, hp, hr]
      · simp [hact, hp, hr, Particle3D.callIsExpired]

/-- C6 (amended): `ParticleSystem.update` *preserves* the invariant
`len(particles) ≤ particleLimit` when it already holds — an erroring tick
leaves the list length unchanged and a successful tick replenishes an
empty list to exactly `min(10, particleLimit)` particles, never more than
the limit — but it performs no trimming, so a pre-existing overflow
persists rather than being cut back. -/
theorem C6_limit_preserved (s : ParticleSystem) (delta : ℚ)
    (mk : ℕ → Particle3D) (h : s.particles.length ≤ s.particleLimit) :
    (s.update delta mk).1.particles.length ≤ s.particleLimit ∧
    (s.active = true → s.particles = [] →
      (s.update delta mk).1.particles.length = min 10 s.particleLimit) := by
  have hl := ParticleSystem.update_length s delta mk
  constructor
  · rw [hl]; split
    · omega
    · exact h
  · intro ha he
    rw [hl]
    by_cases hlim : 0 < s.particleLimit
    · simp [ha, he, hlim]
    · simp [ha, he, hlim]; omega

/-- C6 witness: the preservation theorem applied to an empty active system
with limit 1000 — the tick replenishes to exactly `min 10 1000 = 10`
particles, within the limit. -/
theorem C6_limit_preserved_witness :
    ((ParticleSystem.update
        { active := true, particles := [], particleLimit := 1000 }
        (1667/100) (fun _ => mkLiveParticle 3000)).1).particles.length = min 10 1000 :=
  (C6_limit_preserved
      { active := true, particles := [], particleLimit := 1000 }
      (1667/100) (fun _ => mkLiveParticle 3000) (by simp)).2 rfl rfl

/-! ## ParticleOptimizer.adaptToPerformance
(src/src/utils/ParticleOptimizer.js lines 233-258, with
`PERFORMANCE_THRESHOLDS` from src/unnamed/part_008 lines 11-18:
`targetFPS = 60`, `lowFPS = 30`, `cullingDistance = 5000`) -/

/-- The mutable state touched by `adaptToPerformance`: the global
`PERFORMANCE_THRESHOLDS.cullingDistance` plus the optimizer's culling/LOD
switches. -/
structure OptState where
  cullingDistance : ℚ
  frustumCulling : Bool
  dynamicLOD : Bool
deriving DecidableEq

/-- The state at startup: `cullingDistance = 5000` (part_008 line 16),
culling and dynamic LOD enabled (ParticleOptimizer constructor). -/
def OptState.initial : OptState :=
  { cullingDistance := 5000, frustumCulling := true, dynamicLOD := true }

/-- `adaptToPerformance(fps)` (lines 233-258): below `lowFPS = 30`, enable
culling/LOD and multiply the culling distance by 0.8 — with no lower
bound; above `targetFPS * 0.9 = 54`, and only while the distance is below
the original 5000, multiply it by 1.1 capped at 5000. -/
def adaptToPerformance (s : OptState) (fps : ℚ) : OptState :=
  if fps < 30 then
    { s with
      frustumCulling := true, dynamicLOD := true,
      cullingDistance := s.cullingDistance * (8/10) }
  else if fps > 54 then
    if s.cullingDistance < 5000 then
      { s with cullingDistance := min 5000 (s.cullingDistance * (11/10)) }
    else s
  else s

/-- Run a sequence of `adaptToPerformance` calls. -/
def adaptRun (s : OptState) (fpsSeq : List ℚ) : OptState :=
  fpsSeq.foldl adaptToPerformance s

/-- The claim's floor assertion, as stated: some fixed positive floor
bounds the culling distance below across all call sequences from the
initial state. -/
def cullingFloorHolds : Prop :=
  ∃ floor : ℚ, 0 < floor ∧
    ∀ fpsSeq : List ℚ, floor ≤ (adaptRun OptState.initial fpsSeq).cullingDistance

theorem adaptRun_low_replicate (n : ℕ) :
    (adaptRun OptState.initial (List.replicate n 10)).cullingDistance
      = 5000 * (8/10) ^ n := by
  have key : ∀ n : ℕ, ∀ s : OptState,
      (adaptRun s (List.replicate n 10)).cullingDistance
        = s.cullingDistance * (8/10) ^ n := by
    intro n
    induction n with
    | zero => intro s; simp [adaptRun]
    | succ k ih =>
      intro s
      rw [List.replicate_succ]
      show (adaptRun (adaptToPerformance s 10) (List.replicate k 10)).cullingDistance = _
      rw [ih]
      norm_num [adaptToPerformance]
      ring
  rw [key n OptState.initial]
  norm_num [OptState.initial]

/-- C9 (counterexample): there is no fixed positive floor under the
repeated 20% shrink — the low-FPS branch multiplies the culling distance
by 0.8 with no lower bound, so for any candidate floor enough consecutive
low-FPS calls drive the distance below it. -/
theorem C9_counterexample : ¬cullingFloorHolds := by
  rintro ⟨floor, hpos, hall⟩
  obtain ⟨n, hn⟩ := exists_pow_lt_of_lt_one
    (div_pos hpos (by norm_num : (0:ℚ) < 5000)) (by norm_num : (8:ℚ)/10 < 1)
  have hlt : 5000 * ((8:ℚ)/10) ^ n < floor := by
    have h5 : (0:ℚ) < 5000 := by norm_num
    calc 5000 * ((8:ℚ)/10) ^ n < 5000 * (floor / 5000) := by
          exact (mul_lt_mul_left h5).2 hn
      _ = floor := by field_simp
  have := hall (List.replicate n 10)
  rw [adaptRun_low_replicate n] at this
  linarith

theorem adaptToPerformance_bounds (s : OptState) (fps : ℚ)
    (h0 : 0 < s.cullingDistance) (h5 : s.cullingDistance ≤ 5000) :
    0 < (adaptToPerformance s fps).cullingDistance ∧
    (adaptToPerformance s fps).cullingDistance ≤ 5000 := by
  unfold adaptToPerformance
  split
  · constructor
    · simp only []; positivity
    · simp only []; nlinarith
  · split
    · split
      · refine ⟨lt_min (by norm_num) (by positivity), min_le_left _ _⟩
      · exact ⟨h0, h5⟩
    · exact ⟨h0, h5⟩

/-- C9 (amended): across every sequence of `adaptToPerformance(fps)` calls
from the initial configuration, the culling distance stays positive and
never exceeds the original configured 5000; each call with fps below the
low-FPS threshold multiplies it by exactly 0.8 (a 20% shrink with no
floor), and each call with fps above 90% of the target FPS, made while
the distance is below 5000, multiplies it by 1.1 capped at 5000. -/
theorem C9_culling_distance (fpsSeq : List ℚ) :
    (0 < (adaptRun OptState.initial fpsSeq).cullingDistance ∧
      (adaptRun OptState.initial fpsSeq).cullingDistance ≤ 5000) ∧
    (∀ s : OptState, ∀ fps : ℚ, fps < 30 →
      (adaptToPerformance s fps).cullingDistance = s.cullingDistance * (8/10)) ∧
    (∀ s : OptState, ∀ fps : ℚ, ¬fps < 30 → fps > 54 → s.cullingDistance < 5000 →
      (adaptToPerformance s fps).cullingDistance
        = min 5000 (s.cullingDistance * (11/10))) := by
  refine ⟨?_, ?_, ?_⟩
  · have : ∀ s : OptState, 0 < s.cullingDistance → s.cullingDistance ≤ 5000 →
        0 < (adaptRun s fpsSeq).cullingDistance ∧
        (adaptRun s fpsSeq).cullingDistance ≤ 5000 := by
      induction fpsSeq with
      | nil => intro s h0 h5; exact ⟨h0, h5⟩
      | cons f t ih =>
        intro s h0 h5
        have hb := adaptToPerformance_bounds s f h0 h5
        exact ih (adaptToPerformance s f) hb.1 hb.2
    exact this OptState.initial (by norm_num [OptState.initial])
      (by norm_num [OptState.initial])
  · intro s fps hlt
    simp [adaptToPerformance, hlt]
  · intro s fps hge hgt hlt5
    simp [adaptToPerformance, hge, hgt, hlt5]

/-- C9 witness: the bounds theorem at a concrete call sequence
(one low-FPS tick then one high-FPS tick), plus the per-call shrink and
growth equations at concrete states. -/
theorem C9_culling_distance_witness :
    (0 < (adaptRun OptState.initial [10, 60]).cullingDistance ∧
      (adaptRun OptState.initial [10, 60]).cullingDistance ≤ 5000) ∧
    (adaptToPerformance OptState.initial 10).cullingDistance = 5000 * (8/10) ∧
    (adaptToPerformance
        { cullingDistance := 4000, frustumCulling := true, dynamicLOD := true }
        60).cullingDistance = min 5000 (4000 * (11/10)) :=
  ⟨(C9_culling_distance [10, 60]).1,
   (C9_culling_distance []).2.1 OptState.initial 10 (by norm_num),
   (C9_culling_distance []).2.2
     { cullingDistance := 4000, frustumCulling := true, dynamicLOD := true }
     60 (by norm_num) (by norm_num) (by norm_num)⟩

/-! ## QualityGovernor (src/src/utils/QualityGovernor.js, with
`QUALITY_PRESETS` from src/unnamed/part_008 lines 21-77)

`physicsIterations` and `maxParticles` are JavaScript numbers, so during a
transition they are linearly interpolated like every other numeric field;
booleans switch at the `progress > 0.5` crossover
(`updateIntermediateSettings`, lines 144-164).  `setQualityLevel` with a
name outside `QUALITY_PRESETS` returns `false` without touching state
(lines 110-113); the embedding's level type only has the five valid
tiers.  `lastDelivered` records the settings most recently pushed to
subscribers (`applySettings`/`notifySubscribers`). -/

/-- The five quality tiers. -/
inductive QLevel where
  | ultra | high | medium | low | minimal
deriving DecidableEq

/-- One entry of `QUALITY_PRESETS`. -/
structure QSettings where
  particleMultiplier : ℚ
  maxParticles : ℚ
  renderScale : ℚ
  effectComplexity : ℚ
  animationComplexity : ℚ
  glowEffects : Bool
  postProcessing : Bool
  physicsIterations : ℚ
  renderDistance : ℚ
deriving DecidableEq

/-- `QUALITY_PRESETS` (src/unnamed/part_008 lines 21-77). -/
def QUALITY_PRESETS : QLevel → QSettings
  | .minimal =>
    { particleMultiplier := 2/10, maxParticles := 500, renderScale := 1/2,
      effectComplexity := 0, animationComplexity := 0, glowEffects := false,
      postProcessing := false, physicsIterations := 1, renderDistance := 4/10 }
  | .low =>
    { particleMultiplier := 4/10, maxParticles := 1000, renderScale := 6/10,
      effectComplexity := 3/10, animationComplexity := 3/10, glowEffects := true,
      postProcessing := false, physicsIterations := 2, renderDistance := 6/10 }
  | .medium =>
    { particleMultiplier := 7/10, maxParticles := 2000, renderScale := 8/10,
      effectComplexity := 6/10, animationComplexity := 6/10, glowEffects := true,
      postProcessing := true, physicsIterations := 3, renderDistance := 8/10 }
  | .high =>
    { particleMultiplier := 1, maxParticles := 4000, renderScale := 1,
      effectComplexity := 8/10, animationComplexity := 8/10, glowEffects := true,
      postProcessing := true, physicsIterations := 4, renderDistance := 1 }
  | .ultra =>
    { particleMultiplier := 15/10, maxParticles := 8000, renderScale := 12/10,
      effectComplexity := 1, animationComplexity := 1, glowEffects := true,
      postProcessing := true, physicsIterations := 5, renderDistance := 12/10 }

/-- Linear interpolation `current + (target - current) * progress`. -/
def lerpQ (a b t : ℚ) : ℚ := a + (b - a) * t

/-- `updateIntermediateSettings` (lines 144-164): numeric fields are
linearly interpolated by the progress, non-numeric (boolean) fields
switch to the target at `progress > 0.5`. -/
def interpSettings (cur tgt : QSettings) (t : ℚ) : QSettings :=
  { particleMultiplier := lerpQ cur.particleMultiplier tgt.particleMultiplier t,
    maxParticles := lerpQ cur.maxParticles tgt.maxParticles t,
    renderScale := lerpQ cur.renderScale tgt.renderScale t,
    effectComplexity := lerpQ cur.effectComplexity tgt.effectComplexity t,
    animationComplexity := lerpQ cur.animationComplexity tgt.animationComplexity t,
    glowEffects := if t > 1/2 then tgt.glowEffects else cur.glowEffects,
    postProcessing := if t > 1/2 then tgt.postProcessing else cur.postProcessing,
    physicsIterations := lerpQ cur.physicsIterations tgt.physicsIterations t,
    renderDistance := lerpQ cur.renderDistance tgt.renderDistance t }

/-- The QualityGovernor transition state. -/
structure GovState where
  currentLevel : QLevel
  targetLevel : Option QLevel
  transitionProgress : ℚ
  lastDelivered : Option QSettings
deriving DecidableEq

/-- `setQualityLevel(level)` (lines 109-124) for a valid tier: a no-op when
the tier is already current, otherwise starts a transition with progress 0. -/
def setQualityLevel (s : GovState) (level : QLevel) : GovState :=
  if level = s.currentLevel then s
  else { s with targetLevel := some level, transitionProgress := 0 }

/-- One iteration of the transition loop body (lines 90-107): while a
transition is pending and progress is below 1, add `transitionSpeed =
0.05`; on reaching 1, complete the transition (current := target,
target := null) and broadcast the *preset* settings of the new current
tier; otherwise broadcast interpolated intermediate settings. -/
def govTick (s : GovState) : GovState :=
  match s.targetLevel with
  | some t =>
    if s.transitionProgress < 1 then
      let pr := s.transitionProgress + 1/20
      if pr ≥ 1 then
        { currentLevel := t, targetLevel := none, transitionProgress := 1,
          lastDelivered := some (QUALITY_PRESETS t) }
      else
        { s with
          transitionProgress := pr,
          lastDelivered := some (interpSettings (QUALITY_PRESETS s.currentLevel)
            (QUALITY_PRESETS t) pr) }
    else s
  | none => s

theorem govTick_mid (s : GovState) (t : QLevel) (ht : s.targetLevel = some t)
    (h1 : s.transitionProgress < 1) (h2 : s.transitionProgress + 1/20 < 1) :
    (govTick s).currentLevel = s.currentLevel ∧
    (govTick s).targetLevel = some t ∧
    (govTick s).transitionProgress = s.transitionProgress + 1/20 := by
  unfold govTick
  rw [ht]
  dsimp only
  rw [if_pos h1]
  have h2' : ¬(s.transitionProgress + 1/20 ≥ 1) := not_le.2 h2
  rw [if_neg h2']
  exact ⟨rfl, rfl, rfl⟩

theorem govTick_complete (s : GovState) (t : QLevel) (ht : s.targetLevel = some t)
    (h1 : s.transitionProgress < 1) (h2 : 1 ≤ s.transitionProgress + 1/20) :
    govTick s =
      { currentLevel := t, targetLevel := none, transitionProgress := 1,
        lastDelivered := some (QUALITY_PRESETS t) } := by
  unfold govTick
  rw [ht]
  dsimp only
  rw [if_pos h1]
  rw [if_pos (show s.transitionProgress + 1/20 ≥ 1 from h2)]

/-- C8: starting a transition from tier `A` to a different tier `B` and
advancing the transition loop until progress reaches 1 (exactly 20 ticks
of `transitionSpeed = 0.05` from 0) leaves `currentLevel = B`,
`targetLevel = null`, and the final settings delivered to subscribers are
exactly the preset settings of tier `B` (the completion broadcast reads
`QUALITY_PRESETS[currentLevel]` after `current := target`). -/
theorem C8_transition_convergence (A B : QLevel) (hne : A ≠ B) :
    (govTick^[20] (setQualityLevel
        { currentLevel := A, targetLevel := none, transitionProgress := 1,
          lastDelivered := none } B)).currentLevel = B ∧
    (govTick^[20] (setQualityLevel
        { currentLevel := A, targetLevel := none, transitionProgress := 1,
          lastDelivered := none } B)).targetLevel = none ∧
    (govTick^[20] (setQualityLevel
        { currentLevel := A, targetLevel := none, transitionProgress := 1,
          lastDelivered := none } B)).lastDelivered = some (QUALITY_PRESETS B) := by
  set s0 : GovState :=
    { currentLevel := A, targetLevel := none, transitionProgress := 1,
      lastDelivered := none } with hs0
  have hset : setQualityLevel s0 B =
      { currentLevel := A, targetLevel := some B, transitionProgress := 0,
        lastDelivered := none } := by
    have hBA : ¬(B = A) := fun h => hne h.symm
    unfold setQualityLevel
    simp [hs0, hBA]
  have hmid : ∀ k : ℕ, k ≤ 19 →
      (govTick^[k] (setQualityLevel s0 B)).currentLevel = A ∧
      (govTick^[k] (setQualityLevel s0 B)).targetLevel = some B ∧
      (govTick^[k] (setQualityLevel s0 B)).transitionProgress = (k : ℚ)/20 := by
    intro k
    induction k with
    | zero => intro _; rw [hset]; norm_num
    | succ j ih =>
      intro hj
      have hj' : j ≤ 19 := by omega
      obtain ⟨hc, ht, hp⟩ := ih hj'
      rw [Function.iterate_succ_apply']
      have h1 : (govTick^[j] (setQualityLevel s0 B)).transitionProgress < 1 := by
        rw [hp]
        rw [div_lt_one (by norm_num)]
        exact_mod_cast by omega
      have h2 : (govTick^[j] (setQualityLevel s0 B)).transitionProgress + 1/20 < 1 := by
        rw [hp]
        have : (j : ℚ) < 19 := by exact_mod_cast by omega
        linarith
      obtain ⟨gc, gt', gp⟩ := govTick_mid _ B ht h1 h2
      refine ⟨gc.trans hc, gt', ?_⟩
      rw [gp, hp]
      push_cast
      ring
  obtain ⟨hc, ht, hp⟩ := hmid 19 (by norm_num)
  have h20 : govTick^[20] (setQualityLevel s0 B)
      = govTick (govTick^[19] (setQualityLevel s0 B)) := by
    rw [Function.iterate_succ_apply']
  have hfin := govTick_complete _ B ht
    (by rw [hp]; norm_num) (by rw [hp]; norm_num)
  rw [h20, hfin]
  exact ⟨rfl, rfl, rfl⟩

/-- C8 witness: the convergence theorem for the concrete transition from
`high` to `low`. -/
theorem C8_transition_convergence_witness :
    (govTick^[20] (setQualityLevel
        { currentLevel := QLevel.high, targetLevel := none,
          transitionProgress := 1, lastDelivered := none } QLevel.low)).currentLevel
      = QLevel.low ∧
    (govTick^[20] (setQualityLevel
        { currentLevel := QLevel.high, targetLevel := none,
          transitionProgress := 1, lastDelivered := none } QLevel.low)).lastDelivered
      = some (QUALITY_PRESETS QLevel.low) :=
  ⟨(C8_transition_convergence QLevel.high QLevel.low (by simp)).1,
   (C8_transition_convergence QLevel.high QLevel.low (by simp)).2.2⟩

/-! ## SpatialGrid (src/unnamed/part_000, lines 336-459)

Cell keys are the strings `"${cellX},${cellY}"` with
`cellX = floor(x / cellSize)`; the string形 key is in bijection with the
integer pair, so keys are modelled as `ℤ × ℤ`.  The grid itself is a
JavaScript `Map` from key to bucket array, iterated in key-insertion
order — modelled as an association list in the same order.  `query`
(lines 422-442) first recomputes the visible-cell set from the viewport
(`updateVisibleCells`, lines 400-419) and then concatenates the buckets
of the cells in that set, in grid order. -/

/-- A particle as seen by the grid: an identity and its screen position
(`particle.screenX || 0`, `particle.screenY || 0`). -/
structure SGP where
  id : ℕ
  screenX : ℚ
  screenY : ℚ
deriving DecidableEq

/-- Viewport bounds in screen pixels. -/
structure SGBounds where
  left : ℚ
  right : ℚ
  top : ℚ
  bottom : ℚ
deriving DecidableEq

/-- `SpatialGrid.key(x, y)` (lines 359-363). -/
def cellKey (cs : ℚ) (x y : ℚ) : ℤ × ℤ := (⌊x / cs⌋, ⌊y / cs⌋)

/-- The scan's `this.key(x * this.cellSize, y * this.cellSize)`
(line 414). -/
def keyAtCell (cs : ℚ) (cx cy : ℤ) : ℤ × ℤ :=
  cellKey cs ((cx : ℚ) * cs) ((cy : ℚ) * cs)

/-- The cell key of a particle's screen position. -/
def keyOf (cs : ℚ) (p : SGP) : ℤ × ℤ := cellKey cs p.screenX p.screenY

/-- `SpatialGrid.insert` (lines 366-383): append the particle to its
cell's bucket, creating the bucket (at the end of the map's iteration
order) on first use. -/
def gridInsert (cs : ℚ) (p : SGP) :
    List ((ℤ × ℤ) × List SGP) → List ((ℤ × ℤ) × List SGP)
  | [] => [(keyOf cs p, [p])]
  | (k, bk) :: rest =>
    if k = keyOf cs p then (k, bk ++ [p]) :: rest
    else (k, bk) :: gridInsert cs p rest

/-- A grid freshly built (after `clear()`) by inserting each particle once,
in order. -/
def gridBuild (cs : ℚ) (ps : List SGP) : List ((ℤ × ℤ) × List SGP) :=
  ps.foldl (fun g p => gridInsert cs p g) []

/-- `n` consecutive integers starting at `lo`. -/
def intRangeAux (lo : ℤ) : ℕ → List ℤ
  | 0 => []
  | n + 1 => lo :: intRangeAux (lo + 1) n

/-- The integers of a JavaScript `for (v = lo; v <= hi; v++)` loop. -/
def intRange (lo hi : ℤ) : List ℤ :=
  intRangeAux lo (hi - lo + 1).toNat

theorem mem_intRangeAux (n : ℕ) : ∀ lo k : ℤ,
    (k ∈ intRangeAux lo n ↔ lo ≤ k ∧ k < lo + n) := by
  induction n with
  | zero => intro lo k; simp [intRangeAux]
  | succ m ih =>
    intro lo k
    simp [intRangeAux, ih (lo + 1) k]
    omega

theorem mem_intRange (lo hi k : ℤ) : k ∈ intRange lo hi ↔ lo ≤ k ∧ k ≤ hi := by
  rw [intRange, mem_intRangeAux]
  omega

/-- `updateVisibleCells(bounds)` (lines 400-419): the keys
`key(x·cellSize, y·cellSize)` for all integer `x` in
`[⌊left/cs⌋ .. ⌈right/cs⌉]` and `y` in `[⌊top/cs⌋ .. ⌈bottom/cs⌉]`. -/
def visibleCells (cs : ℚ) (b : SGBounds) : List (ℤ × ℤ) :=
  (intRange ⌊b.left / cs⌋ ⌈b.right / cs⌉).flatMap
    fun cx => (intRange ⌊b.top / cs⌋ ⌈b.bottom / cs⌉).map
      fun cy => keyAtCell cs cx cy

/-- `query(bounds)` (lines 422-442): concatenate, in grid order, the
buckets of the cells in the visible set. -/
def gridQuery (cs : ℚ) (b : SGBounds) :
    List ((ℤ × ℤ) × List SGP) → List SGP
  | [] => []
  | (k, bk) :: rest =>
    if k ∈ visibleCells cs b then bk ++ gridQuery cs b rest
    else gridQuery cs b rest

/-- A grid cell `(k₁, k₂)` covers the half-open square
`[k₁·cs, (k₁+1)·cs) × [k₂·cs, (k₂+1)·cs)` (the spec's §8 boundary rule:
a position on a cell edge belongs to the higher-indexed cell).  This
predicate says that square meets the closed viewport rectangle. -/
def cellIntersects (cs : ℚ) (b : SGBounds) (k : ℤ × ℤ) : Prop :=
  (k.1 : ℚ) * cs ≤ b.right ∧ b.left < ((k.1 : ℚ) + 1) * cs ∧
  (k.2 : ℚ) * cs ≤ b.bottom ∧ b.top < ((k.2 : ℚ) + 1) * cs

theorem keyAtCell_eq (cs : ℚ) (hcs : 0 < cs) (cx cy : ℤ) :
    keyAtCell cs cx cy = (cx, cy) := by
  unfold keyAtCell cellKey
  rw [mul_div_cancel_right₀ _ (ne_of_gt hcs), mul_div_cancel_right₀ _ (ne_of_gt hcs)]
  simp

/-- Membership in the visible-cell scan: exactly the integer rectangle
`[⌊left/cs⌋, ⌈right/cs⌉] × [⌊top/cs⌋, ⌈bottom/cs⌉]`. -/
theorem mem_visibleCells (cs : ℚ) (hcs : 0 < cs) (b : SGBounds) (k : ℤ × ℤ) :
    k ∈ visibleCells cs b ↔
      ⌊b.left / cs⌋ ≤ k.1 ∧ k.1 ≤ ⌈b.right / cs⌉ ∧
      ⌊b.top / cs⌋ ≤ k.2 ∧ k.2 ≤ ⌈b.bottom / cs⌉ := by
  unfold visibleCells
  simp only [List.mem_flatMap, List.mem_map, mem_intRange]
  constructor
  · rintro ⟨cx, hcx, cy, hcy, hk⟩
    rw [keyAtCell_eq cs hcs] at hk
    subst hk
    exact ⟨hcx.1, hcx.2, hcy.1, hcy.2⟩
  · rintro ⟨h1, h2, h3, h4⟩
    refine ⟨k.1, ⟨h1, h2⟩, k.2, ⟨h3, h4⟩, ?_⟩
    rw [keyAtCell_eq cs hcs]

/-- C7 (counterexample): with the default cell size 100 and the viewport
`[0,150] × [0,150]`, a particle at screen position `(250, 50)` lives in
cell `(2, 0)`, whose square `[200,300) × [0,100)` does not meet the
viewport — yet `query` returns it, because `updateVisibleCells` scans up
to column `⌈150/100⌉ = 2`. -/
theorem C7_counterexample :
    gridQuery 100 ⟨0, 150, 0, 150⟩ (gridBuild 100 [⟨0, 250, 50⟩]) = [⟨0, 250, 50⟩] ∧
    ¬ cellIntersects 100 ⟨0, 150, 0, 150⟩ (keyOf 100 ⟨0, 250, 50⟩) := by
  constructor
  · have hkey : keyOf 100 ⟨0, 250, 50⟩ = (2, 0) := by
      unfold keyOf cellKey
      norm_num
    have hbuild : gridBuild 100 [⟨0, 250, 50⟩] = [((2, 0), [⟨0, 250, 50⟩])] := by
      unfold gridBuild
      simp [gridInsert, hkey]
    rw [hbuild]
    unfold gridQuery
    rw [if_pos]
    · simp [gridQuery]
    · rw [mem_visibleCells 100 (by norm_num)]
      have hfl : ⌊(0:ℚ)/100⌋ = 0 := by
        rw [Int.floor_eq_iff]
        all_goals norm_num
      have hcl : ⌈(3:ℚ)/2⌉ = 2 := by
        rw [Int.ceil_eq_iff]
        all_goals norm_num
      norm_num [hfl, hcl]
  · unfold cellIntersects keyOf cellKey
    norm_num

/-- The number of occurrences, by identity, of a particle in a list. -/
def countId (i : ℕ) (l : List SGP) : ℕ :=
  l.countP fun q => decide (q.id = i)

/-- The marker counted per inserted particle: its cell is visible and its
identity matches. -/
def visHit (cs : ℚ) (b : SGBounds) (i : ℕ) (q : SGP) : Bool :=
  decide (keyOf cs q ∈ visibleCells cs b ∧ q.id = i)

theorem countId_gridQuery_insert (cs : ℚ) (b : SGBounds) (i : ℕ) (p : SGP)
    (g : List ((ℤ × ℤ) × List SGP)) :
    countId i (gridQuery cs b (gridInsert cs p g))
      = countId i (gridQuery cs b g) + (if visHit cs b i p then 1 else 0) := by
  induction g with
  | nil =>
    unfold gridInsert gridQuery
    by_cases hv : keyOf cs p ∈ visibleCells cs b
    · by_cases hid : p.id = i
      · simp [hv, countId, List.countP_cons, hid, visHit, gridQuery]
      · simp [hv, countId, List.countP_cons, hid, visHit, gridQuery]
    · simp [hv, countId, visHit, gridQuery]
  | cons kb rest ih =>
    obtain ⟨k, bk⟩ := kb
    show countId i (gridQuery cs b
        (if k = keyOf cs p then (k, bk ++ [p]) :: rest
         else (k, bk) :: gridInsert cs p rest)) = _
    by_cases hk : k = keyOf cs p
    · rw [if_pos hk]
      show countId i (if k ∈ visibleCells cs b
          then (bk ++ [p]) ++ gridQuery cs b rest else gridQuery cs b rest) = _
      by_cases hv : k ∈ visibleCells cs b
      · rw [if_pos hv]
        show _ = countId i (if k ∈ visibleCells cs b
            then bk ++ gridQuery cs b rest else gridQuery cs b rest) + _
        rw [if_pos hv]
        by_cases hid : p.id = i
        · simp [countId, List.countP_append, List.countP_cons, hid, visHit,
            hk ▸ hv]
          omega
        · simp [countId, List.countP_append, List.countP_cons, hid, visHit]
      · rw [if_neg hv]
        show _ = countId i (if k ∈ visibleCells cs b
            then bk ++ gridQuery cs b rest else gridQuery cs b rest) + _
        rw [if_neg hv]
        have : visHit cs b i p = false := by
          simp [visHit]
          intro hmem
          exact absurd (hk ▸ hmem) hv
        simp [this]
    · rw [if_neg hk]
      show countId i (if k ∈ visibleCells cs b
          then bk ++ gridQuery cs b (gridInsert cs p rest)
          else gridQuery cs b (gridInsert cs p rest)) = _
      by_cases hv : k ∈ visibleCells cs b
      · rw [if_pos hv]
        show _ = countId i (if k ∈ visibleCells cs b
            then bk ++ gridQuery cs b rest else gridQuery cs b rest) + _
        rw [if_pos hv]
        simp only [countId, List.countP_append] at ih ⊢
        omega
      · rw [if_neg hv]
        show _ = countId i (if k ∈ visibleCells cs b
            then bk ++ gridQuery cs b rest else gridQuery cs b rest) + _
        rw [if_neg hv]
        exact ih

theorem countId_gridQuery_build_aux (cs : ℚ) (b : SGBounds) (i : ℕ)
    (ps : List SGP) :
    ∀ g, countId i (gridQuery cs b (ps.foldl (fun g p => gridInsert cs p g) g))
      = countId i (gridQuery cs b g) + ps.countP (visHit cs b i) := by
  induction ps with
  | nil => intro g; simp
  | cons q t ih =>
    intro g
    rw [List.foldl_cons, ih (gridInsert cs q g), countId_gridQuery_insert,
      List.countP_cons]
    by_cases hq : visHit cs b i q <;> simp [hq] <;> omega

theorem countP_visHit_nodup (cs : ℚ) (b : SGBounds) (ps : List SGP)
    (hnd : (ps.map SGP.id).Nodup) (p : SGP) (hp : p ∈ ps) :
    ps.countP (visHit cs b p.id)
      = if keyOf cs p ∈ visibleCells cs b then 1 else 0 := by
  induction ps with
  | nil => cases hp
  | cons q t ih =>
    rw [List.map_cons, List.nodup_cons] at hnd
    obtain ⟨hqid, hnd'⟩ := hnd
    rw [List.countP_cons]
    rcases List.mem_cons.1 hp with rfl | hpt
    · have ht0 : t.countP (visHit cs b p.id) = 0 := by
        rw [List.countP_eq_zero]
        intro r hr
        simp only [visHit, decide_eq_true_eq, not_and]
        intro _ hrid
        exact hqid (hrid ▸ List.mem_map_of_mem SGP.id hr)
      rw [ht0]
      by_cases hv : keyOf cs p ∈ visibleCells cs b
      · simp [visHit, hv]
      · simp [visHit, hv]
    · have hqp : ¬(q.id = p.id) := fun h =>
        hqid (h ▸ List.mem_map_of_mem SGP.id hpt)
      have hq0 : visHit cs b p.id q = false := by
        simp [visHit, hqp]
      rw [ih hnd' hpt, hq0]
      simp

/-- C7 (amended): for particles with pairwise-distinct identities each
inserted once into a fresh grid, `query(viewport)` returns a particle
exactly once when its cell key lies in the scanned integer rectangle
`[⌊left/cs⌋, ⌈right/cs⌉] × [⌊top/cs⌋, ⌈bottom/cs⌉]`, and zero times
otherwise; every particle whose cell meets the viewport lies in that
rectangle (so it is returned exactly once) — but the rectangle's `⌈·⌉`
upper edges can include one extra row/column of cells that do not meet
the viewport, and particles there are also returned (C7's
counterexample). -/
theorem C7_query_exactness (cs : ℚ) (hcs : 0 < cs) (b : SGBounds)
    (ps : List SGP) (hnd : (ps.map SGP.id).Nodup) (p : SGP) (hp : p ∈ ps) :
    countId p.id (gridQuery cs b (gridBuild cs ps))
      = (if keyOf cs p ∈ visibleCells cs b then 1 else 0) ∧
    (cellIntersects cs b (keyOf cs p) → keyOf cs p ∈ visibleCells cs b) := by
  constructor
  · have hbase : countId p.id (gridQuery cs b []) = 0 := by
      simp [gridQuery, countId]
    have hbuild := countId_gridQuery_build_aux cs b p.id ps []
    rw [gridBuild, hbuild, hbase, countP_visHit_nodup cs b ps hnd p hp]
    exact Nat.zero_add _
  · rintro ⟨h1, h2, h3, h4⟩
    rw [mem_visibleCells cs hcs]
    refine ⟨?_, ?_, ?_, ?_⟩
    · have hq : b.left / cs < ((keyOf cs p).1 : ℚ) + 1 := by
        rw [div_lt_iff₀ hcs]
        exact h2
      have hz : (⌊b.left / cs⌋ : ℚ) < ((keyOf cs p).1 : ℚ) + 1 :=
        lt_of_le_of_lt (Int.floor_le _) hq
      have : ⌊b.left / cs⌋ < (keyOf cs p).1 + 1 := by exact_mod_cast hz
      omega
    · have hq : ((keyOf cs p).1 : ℚ) ≤ b.right / cs := by
        rw [le_div_iff₀ hcs]
        exact h1
      have hz : ((keyOf cs p).1 : ℚ) ≤ (⌈b.right / cs⌉ : ℚ) :=
        le_trans hq (Int.le_ceil _)
      exact_mod_cast hz
    · have hq : b.top / cs < ((keyOf cs p).2 : ℚ) + 1 := by
        rw [div_lt_iff₀ hcs]
        exact h4
      have hz : (⌊b.top / cs⌋ : ℚ) < ((keyOf cs p).2 : ℚ) + 1 :=
        lt_of_le_of_lt (Int.floor_le _) hq
      have : ⌊b.top / cs⌋ < (keyOf cs p).2 + 1 := by exact_mod_cast hz
      omega
    · have hq : ((keyOf cs p).2 : ℚ) ≤ b.bottom / cs := by
        rw [le_div_iff₀ hcs]
        exact h3
      have hz : ((keyOf cs p).2 : ℚ) ≤ (⌈b.bottom / cs⌉ : ℚ) :=
        le_trans hq (Int.le_ceil _)
      exact_mod_cast hz

/-- C7 witness: the exactness theorem applied to a one-particle grid with
cell size 100 and the viewport `[0,150]²`; the particle at `(50,50)` sits
in cell `(0,0)`, which meets the viewport, so it is returned exactly
once. -/
theorem C7_query_exactness_witness :
    countId 0 (gridQuery 100 ⟨0, 150, 0, 150⟩ (gridBuild 100 [⟨0, 50, 50⟩]))
      = (if keyOf 100 ⟨0, 50, 50⟩ ∈ visibleCells 100 ⟨0, 150, 0, 150⟩
         then 1 else 0) :=
  (C7_query_exactness 100 (by norm_num) ⟨0, 150, 0, 150⟩ [⟨0, 50, 50⟩]
    (by simp) ⟨0, 50, 50⟩ (by simp)).1

/-! ## FluidSimulation (src/unnamed/part_010)

Dense 2D fields (`Float32Array(width * height)`) are modelled as
`List ℚ`, addressed through the clamped index map `IX` (lines 45-48).
Every coordinate reaching `IX` in the embedded paths is nonnegative, so
only the upper clamp `min (dim - 1)` is written out (the source also
clamps below at 0).  A read never goes out of range, and every write hits
an existing slot, so the JavaScript array semantics coincide with
in-place list updates.  Loops run exactly as in the source: `j` outer
from `1` to `height - 2`, `i` inner from `1` to `width - 2`, and the
Gauss-Seidel sweeps of `linearSolve` (lines 225-245) read already-updated
values within the sweep. -/

/-- Read a field slot (in-range in all embedded paths). -/
def fget : List ℚ → ℕ → ℚ
  | [], _ => 0
  | v :: _, 0 => v
  | _ :: t, n + 1 => fget t n

/-- Write a field slot (in-range in all embedded paths). -/
def fset : List ℚ → ℕ → ℚ → List ℚ
  | [], _, _ => []
  | _ :: t, 0, v => v :: t
  | u :: t, n + 1, v => u :: fset t n v

/-- `IX(x, y)` (lines 45-48) for nonnegative coordinates. -/
def IX (w h x y : ℕ) : ℕ := min x (w - 1) + min y (h - 1) * w

/-- The source's interior double loop:
`for (j = 1; j < height-1; j++) for (i = 1; i < width-1; i++)`. -/
def interiorFold {α : Type} (w h : ℕ) (f : ℕ → ℕ → α → α) (a : α) : α :=
  (List.range (h - 2)).foldl
    (fun acc jm => (List.range (w - 2)).foldl
      (fun acc2 im => f (im + 1) (jm + 1) acc2) acc) a

/-- `setBoundary(b, x)` (lines 323-340): edge cells copy (or negate, for
the perpendicular velocity component) the adjacent interior cell, then
the four corners average their two neighbours. -/
def setBoundary (w h : ℕ) (b : ℕ) (x : List ℚ) : List ℚ :=
  let x1 := (List.range (w - 2)).foldl (fun acc im =>
    let i := im + 1
    let acc1 := fset acc (IX w h i 0)
      (if b = 2 then -(fget acc (IX w h i 1)) else fget acc (IX w h i 1))
    fset acc1 (IX w h i (h - 1))
      (if b = 2 then -(fget acc1 (IX w h i (h - 2))) else fget acc1 (IX w h i (h - 2)))) x
  let x2 := (List.range (h - 2)).foldl (fun acc jm =>
    let j := jm + 1
    let acc1 := fset acc (IX w h 0 j)
      (if b = 1 then -(fget acc (IX w h 1 j)) else fget acc (IX w h 1 j))
    fset acc1 (IX w h (w - 1) j)
      (if b = 1 then -(fget acc1 (IX w h (w - 2) j)) else fget acc1 (IX w h (w - 2) j))) x1
  let x3 := fset x2 (IX w h 0 0)
    ((1/2) * (fget x2 (IX w h 1 0) + fget x2 (IX w h 0 1)))
  let x4 := fset x3 (IX w h 0 (h - 1))
    ((1/2) * (fget x3 (IX w h 1 (h - 1)) + fget x3 (IX w h 0 (h - 2))))
  let x5 := fset x4 (IX w h (w - 1) 0)
    ((1/2) * (fget x4 (IX w h (w - 2) 0) + fget x4 (IX w h (w - 1) 1)))
  fset x5 (IX w h (w - 1) (h - 1))
    ((1/2) * (fget x5 (IX w h (w - 2) (h - 1)) + fget x5 (IX w h (w - 1) (h - 2))))

/-- `linearSolve(b, x, x0, a, c)` (lines 225-245): `iterations` in-place
Gauss-Seidel sweeps, each followed by `setBoundary`. -/
def linearSolve (w h iters : ℕ) (b : ℕ) (x x0 : List ℚ) (a c : ℚ) : List ℚ :=
  let invC := 1 / c
  (List.range iters).foldl (fun xcur _ =>
    let swept := interiorFold w h (fun i j acc =>
      fset acc (IX w h i j)
        ((fget x0 (IX w h i j) + a * (fget acc (IX w h (i + 1) j)
          + fget acc (IX w h (i - 1) j) + fget acc (IX w h i (j + 1))
          + fget acc (IX w h i (j - 1)))) * invC)) xcur
    setBoundary w h b swept) x

/-- `project(velocX, velocY, p, div)` (lines 289-316): compute the
divergence field and zero the pressure, apply boundaries, solve the
pressure equation with `linearSolve(0, p, div, 1, 6)`, subtract the
pressure gradient from the velocity, and re-apply velocity boundaries.
Returns the updated `(velocX, velocY, p, div)`. -/
def project (w h iters : ℕ) (vx vy p div : List ℚ) :
    List ℚ × List ℚ × List ℚ × List ℚ :=
  let pd := interiorFold w h (fun i j (acc : List ℚ × List ℚ) =>
    let dAcc := fset acc.2 (IX w h i j)
      ((-1/2) * (fget vx (IX w h (i + 1) j) - fget vx (IX w h (i - 1) j)
        + fget vy (IX w h i (j + 1)) - fget vy (IX w h i (j - 1))) / (w : ℚ))
    let pAcc := fset acc.1 (IX w h i j) 0
    (pAcc, dAcc)) (p, div)
  let div1 := setBoundary w h 0 pd.2
  let p1 := setBoundary w h 0 pd.1
  let p2 := linearSolve w h iters 0 p1 div1 1 6
  let vv := interiorFold w h (fun i j (acc : List ℚ × List ℚ) =>
    let vxA := fset acc.1 (IX w h i j)
      (fget acc.1 (IX w h i j) - (1/2) * (fget p2 (IX w h (i + 1) j)
        - fget p2 (IX w h (i - 1) j)) * (w : ℚ))
    let vyA := fset acc.2 (IX w h i j)
      (fget acc.2 (IX w h i j) - (1/2) * (fget p2 (IX w h i (j + 1))
        - fget p2 (IX w h i (j - 1))) * (h : ℚ))
    (vxA, vyA)) (vx, vy)
  let vx1 := setBoundary w h 1 vv.1
  let vy1 := setBoundary w h 2 vv.2
  (vx1, vy1, p2, div1)

/-- The discrete divergence the solver itself uses (lines 293-296). -/
def divergenceAt (w h : ℕ) (vx vy : List ℚ) (i j : ℕ) : ℚ :=
  (-1/2) * (fget vx (IX w h (i + 1) j) - fget vx (IX w h (i - 1) j)
    + fget vy (IX w h i (j + 1)) - fget vy (IX w h i (j - 1))) / (w : ℚ)

/-- Maximum of `|divergence|` over the interior cells. -/
def maxAbsInteriorDiv (w h : ℕ) (vx vy : List ℚ) : ℚ :=
  interiorFold w h (fun i j m => max m |divergenceAt w h vx vy i j|) 0

/-- One `project` pass strictly reduces the maximum interior divergence
magnitude of the velocity field, starting from zeroed scratch arrays. -/
def projectReducesDiv (w h iters : ℕ) (vx vy : List ℚ) : Prop :=
  maxAbsInteriorDiv w h
      (project w h iters vx vy (List.replicate (w * h) 0)
        (List.replicate (w * h) 0)).1
      (project w h iters vx vy (List.replicate (w * h) 0)
        (List.replicate (w * h) 0)).2.1
    < maxAbsInteriorDiv w h vx vy

/-- The C10 claim as stated, over a 4×4 grid with the default
`iterations = 4`: every velocity field with nonzero discrete divergence
has it reduced by one `project` pass. -/
def projectAlwaysReduces : Prop :=
  ∀ vx vy : List ℚ, vx.length = 16 → vy.length = 16 →
    maxAbsInteriorDiv 4 4 vx vy ≠ 0 → projectReducesDiv 4 4 4 vx vy

/-- A unit x- and y-velocity impulse at cell (2,2) of a 4×4 grid. -/
def exImpulseXY : List ℚ :=
  [0, 0, 0, 0, 0, 0, 0, 0, 0, 0, 1, 0, 0, 0, 0, 0]

/-- A unit x-velocity impulse at cell (2,2) of a 4×4 grid, y at rest. -/
def exZero16 : List ℚ :=
  [0, 0, 0, 0, 0, 0, 0, 0, 0, 0, 0, 0, 0, 0, 0, 0]

set_option maxHeartbeats 8000000 in
set_option maxRecDepth 8000 in
theorem projectIncrease_on_xyImpulse :
    maxAbsInteriorDiv 4 4 exImpulseXY exImpulseXY ≠ 0 ∧
    ¬ projectReducesDiv 4 4 4 exImpulseXY exImpulseXY := by
  constructor
  · norm_num [maxAbsInteriorDiv, interiorFold, divergenceAt, IX, fget,
      exImpulseXY, List.range_succ]
  · norm_num [projectReducesDiv, project, linearSolve, setBoundary, interiorFold,
      maxAbsInteriorDiv, divergenceAt, IX, fget, fset,
      exImpulseXY, List.range_succ]
    all_goals norm_num [abs_of_nonneg]

/-- C10 (counterexample): one `project` pass does not reduce the interior
divergence of every field.  For the 4×4 field with a unit x- and
y-impulse at cell (2,2), the maximum interior `|divergence|` grows from
`1/8` to `12077/52488 ≈ 0.23` — the four-sweep relaxation (with the
3D denominator 6 on a 4-neighbour stencil) under-solves the pressure and
the gradient subtraction overshoots at the impulse cell. -/
theorem C10_counterexample : ¬ projectAlwaysReduces := by
  intro h
  exact projectIncrease_on_xyImpulse.2
    (h exImpulseXY exImpulseXY rfl rfl projectIncrease_on_xyImpulse.1)

set_option maxHeartbeats 8000000 in
set_option maxRecDepth 8000 in
/-- C10 (amended): on a synthetic velocity field — a unit x-velocity
impulse at cell (2,2) of a 4×4 grid with the default 4 iterations — one
`project` pass does reduce the maximum interior `|divergence|` (from
`1/8` to `12077/104976 ≈ 0.115`), but this is a per-field fact, not a
property of all fields with nonzero divergence. -/
theorem C10_project_reduces_impulse :
    maxAbsInteriorDiv 4 4 exImpulseXY exZero16 ≠ 0 ∧
    projectReducesDiv 4 4 4 exImpulseXY exZero16 := by
  constructor
  · norm_num [maxAbsInteriorDiv, interiorFold, divergenceAt, IX, fget,
      exImpulseXY, exZero16, List.range_succ]
  · norm_num [projectReducesDiv, project, linearSolve, setBoundary, interiorFold,
      maxAbsInteriorDiv, divergenceAt, IX, fget, fset,
      exImpulseXY, exZero16, List.range_succ]
    all_goals norm_num [abs_of_nonneg]
